import Mathlib

/-!
Shallow embedding of the warehouse-management route handlers:
the product list route (`src/app/routes/products.tsx`, its `loader` and
the table body of `ProductsPage`) and the product create route
(`src/unnamed/part_000`, its `action`).

Handlers are modelled as pure functions of the session, the submitted
form fields, and the data-store outcome; each returns the list of store
operations it issued together with the HTTP response it produced.
JavaScript idioms used by the source (string falsiness, `x || null`,
`parseInt(s, 10)`, template-literal coercion) are embedded explicitly.
-/

namespace Depo

/-- A product row as selected by the list loader: all displayed columns plus
the left-joined group name (`product_groups ( name )`), which may be null. -/
structure ProductWithGroup where
  id : String
  stock_code : String
  material_name_1 : String
  unit_of_measure : String
  current_stock : Int
  serial_number : Option String
  product_groups : Option String
deriving DecidableEq, Repr

/-- The record object passed to `supabase.from('products').insert([...])`
by the create action. The string fields hold exactly the JavaScript values
at that point (`string | null`), so they are `Option String`. -/
structure InsertedRow where
  stock_code : Option String
  material_name_1 : Option String
  material_name_2 : Option String
  unit_of_measure : Option String
  serial_number : Option String
  group_id : Int
  current_stock : Int
deriving DecidableEq, Repr

/-- A data-store error as returned by the store client; `code` is the
store-specific error code (PostgreSQL unique violation is `23505`). -/
structure DbError where
  code : String
deriving DecidableEq, Repr

/-- One operation issued to the data store by a handler. -/
inductive StoreOp where
  | selectFrom (table : String)
  | insertInto (table : String) (row : InsertedRow)
deriving DecidableEq, Repr

/-- Body of an HTTP response produced by a handler. -/
inductive RespBody where
  | emptyBody
  | fieldErrors (errs : List (String × String))
  | message (msg : String)
  | productsJson (ps : List ProductWithGroup)
deriving DecidableEq, Repr

/-- An HTTP response: status, redirect target when present, body, and
whether the response was built with `headers: response.headers` (the auth
client's response object), which carries session-cookie updates. -/
structure HttpResponse where
  status : Nat
  location : Option String
  body : RespBody
  withAuthHeaders : Bool
deriving DecidableEq, Repr

/-- Does a response body carry a field error for the given field name? -/
def RespBody.hasFieldError : RespBody → String → Bool
  | .fieldErrors errs, fld => errs.any (fun p => p.1 == fld)
  | _, _ => false

/-- JavaScript falsiness of a `string | null` value: `!x` is true exactly
when `x` is `null` or the empty string. -/
def jsFalsy : Option String → Bool
  | none => true
  | some s => s == ""

/-- The JavaScript expression `x || null` on a `string | null` value:
empty string and null both become null, anything else is kept. -/
def orNull (o : Option String) : Option String :=
  if jsFalsy o then none else o

/-- JavaScript `ToString` on a `string | null` value, as applied by
`parseInt` and by template literals: `null` prints as `"null"`. -/
def jsToString : Option String → String
  | none => "null"
  | some s => s

/-- Whitespace characters skipped by JavaScript `parseInt` before parsing. -/
def isJsWhitespace (c : Char) : Bool :=
  c == ' ' || c == '\t' || c == '\n' || c == '\r' || c == '\x0b' || c == '\x0c'

/-- Value of the maximal leading run of decimal digits, accumulated onto
`acc`; stops at the first non-digit. -/
def digitPrefixVal : List Char → Nat → Nat
  | [], acc => acc
  | c :: cs, acc =>
    if c.isDigit then digitPrefixVal cs (acc * 10 + (c.toNat - '0'.toNat)) else acc

/-- The digit-consuming phase of JavaScript `parseInt(·, 10)`: `none` (NaN)
when the first character is not a digit, otherwise the value of the maximal
digit prefix (later characters are ignored). -/
def jsParseIntDigits (cs : List Char) : Option Int :=
  match cs with
  | [] => none
  | c :: _ => if c.isDigit then some ((digitPrefixVal cs 0 : Nat) : Int) else none

/-- JavaScript `parseInt(s, 10)`: skip leading whitespace, allow one sign,
then parse the maximal digit prefix; `none` models NaN. -/
def parseInt10 (s : String) : Option Int :=
  match s.data.dropWhile isJsWhitespace with
  | [] => none
  | c :: rest =>
    if c = '-' then (jsParseIntDigits rest).map (fun n => -n)
    else if c = '+' then jsParseIntDigits rest
    else jsParseIntDigits (c :: rest)

/-- The submitted form as read by the action via `formData.get(...)`:
each field is `string | null`. -/
structure FormInput where
  stock_code : Option String
  material_name_1 : Option String
  material_name_2 : Option String
  unit_of_measure : Option String
  serial_number : Option String
  group_id : Option String
deriving DecidableEq, Repr

/-- The `fieldErrors` object accumulated by the action's required-field
checks, in the order the source assigns its keys. -/
def requiredFieldErrors (f : FormInput) : List (String × String) :=
  (if jsFalsy f.stock_code then [("stock_code", "Stok Kodu zorunludur.")] else []) ++
  (if jsFalsy f.material_name_1 then [("material_name_1", "Malzeme Adı zorunludur.")] else []) ++
  (if jsFalsy f.unit_of_measure then [("unit_of_measure", "Birim zorunludur.")] else []) ++
  (if jsFalsy f.group_id then [("group_id", "Ürün Grubu seçilmelidir.")] else [])

/-- Model of the data store applying an insert: a failed insert leaves the
table unchanged; a successful one appends the row. This models the store
boundary (the store enforces its own constraints), per the spec's external
interface description. -/
def storeApplyInsert (table : List InsertedRow) (row : InsertedRow)
    (outcome : Option DbError) : List InsertedRow :=
  match outcome with
  | some _ => table
  | none => table ++ [row]

/-- Ordering requested by the list loader's query: ascending by
`material_name_1`. -/
def productNameLe (a b : ProductWithGroup) : Prop :=
  a.material_name_1 ≤ b.material_name_1

instance : DecidableRel productNameLe :=
  fun a b => inferInstanceAs (Decidable (a.material_name_1 ≤ b.material_name_1))

instance : IsTotal ProductWithGroup productNameLe :=
  ⟨fun a b => le_total a.material_name_1 b.material_name_1⟩

instance : IsTrans ProductWithGroup productNameLe :=
  ⟨fun _ _ _ h1 h2 => le_trans h1 h2⟩

/-- Model of the store answering the loader's
`select(...).order('material_name_1', { ascending: true })` query: the
products table sorted ascending by `material_name_1` (a stable sort, as
the store's order-by is). -/
def storeSelectProductsOrdered (table : List ProductWithGroup) : List ProductWithGroup :=
  List.insertionSort productNameLe table

namespace ProductsRoute

/-- The `loader` of `src/app/routes/products.tsx`: session check first
(redirect to `/login` with the auth headers when absent), then the ordered
products query; a store error is thrown as a plain 500 `Response` built
without the auth headers; success returns the data as JSON with the auth
headers. Returns the store-operation trace alongside the response. -/
def loader (session : Option Unit) (productsTable : List ProductWithGroup)
    (selectError : Option DbError) : List StoreOp × HttpResponse :=
  match session with
  | none => ([], ⟨302, some "/login", .emptyBody, true⟩)
  | some _ =>
    match selectError with
    | some _ =>
      ([.selectFrom "products"],
       ⟨500, none, .message "Ürünler yüklenirken bir hata oluştu.", false⟩)
    | none =>
      ([.selectFrom "products"],
       ⟨200, none, .productsJson (storeSelectProductsOrdered productsTable), true⟩)

/-- One row of the rendered table body of `ProductsPage`. -/
inductive TableRow where
  | placeholder
  | productRow (p : ProductWithGroup)
deriving DecidableEq, Repr

/-- The table body rendered by `ProductsPage`: a single placeholder row
when the product list is empty, otherwise one row per product. -/
def renderTableBody (products : List ProductWithGroup) : List TableRow :=
  if products.length = 0 then [.placeholder]
  else products.map .productRow

end ProductsRoute

namespace NewProductRoute

/-- The `action` of the create route (`src/unnamed/part_000`): session
check first (thrown redirect to `/login` with the auth headers when
absent); then the four required-field checks, returning 400 with the
accumulated `fieldErrors` if any; then `parseInt(group_id_str, 10)`,
returning 400 with only the invalid-group error on NaN; then the insert,
mapping store error code `23505` to a 409 naming the stock code, any other
store error to a generic 500, and success to a redirect to `/products`.
All of these responses are built with the auth headers. Returns the
store-operation trace alongside the response. -/
def action (session : Option Unit) (form : FormInput)
    (insertOutcome : Option DbError) : List StoreOp × HttpResponse :=
  match session with
  | none => ([], ⟨302, some "/login", .emptyBody, true⟩)
  | some _ =>
    let fieldErrors := requiredFieldErrors form
    if 0 < fieldErrors.length then
      ([], ⟨400, none, .fieldErrors fieldErrors, true⟩)
    else
      match parseInt10 (jsToString form.group_id) with
      | none =>
        ([], ⟨400, none, .fieldErrors [("group_id", "Geçersiz Ürün Grubu.")], true⟩)
      | some gid =>
        let row : InsertedRow :=
          ⟨form.stock_code, form.material_name_1, orNull form.material_name_2,
           form.unit_of_measure, orNull form.serial_number, gid, 0⟩
        match insertOutcome with
        | some e =>
          if e.code == "23505" then
            ([.insertInto "products" row],
             ⟨409, none,
              .message ("Bu Stok Kodu (" ++ jsToString form.stock_code ++ ") zaten mevcut."),
              true⟩)
          else
            ([.insertInto "products" row],
             ⟨500, none, .message "Ürün eklenirken bir veritabanı hatası oluştu.", true⟩)
        | none =>
          ([.insertInto "products" row], ⟨302, some "/products", .emptyBody, true⟩)

end NewProductRoute

/-! Claim theorems -/

/-- C1: for every inbound request with no valid session, both the list
loader and the create action produce a redirect to `/login`, and their
store-operation trace is empty: no query or insert happens before the
redirect. -/
theorem claim_C1_no_session_redirects_without_data_access
    (tbl : List ProductWithGroup) (selErr : Option DbError)
    (f : FormInput) (insOut : Option DbError) :
    (ProductsRoute.loader none tbl selErr).1 = [] ∧
    (ProductsRoute.loader none tbl selErr).2.location = some "/login" ∧
    (ProductsRoute.loader none tbl selErr).2.status = 302 ∧
    (NewProductRoute.action none f insOut).1 = [] ∧
    (NewProductRoute.action none f insOut).2.location = some "/login" ∧
    (NewProductRoute.action none f insOut).2.status = 302 :=
  ⟨rfl, rfl, rfl, rfl, rfl, rfl⟩

/-- C2 counterexample: with `stock_code` empty and `group_id = "abc"`
(non-numeric), the action's 400 response carries only the required-field
error for `stock_code` and no `group_id` error at all, because the
required-field phase returns before the `parseInt` check runs. This
refutes the claim that a non-numeric `group_id` always yields a
`group_id` error regardless of other missing required fields. -/
theorem claim_C2_counterexample_missing_field_masks_invalid_group :
    (NewProductRoute.action (some ())
        ⟨some "", some "Vida", none, some "adet", none, some "abc"⟩ none).2 =
      ⟨400, none, .fieldErrors [("stock_code", "Stok Kodu zorunludur.")], true⟩ ∧
    (NewProductRoute.action (some ())
        ⟨some "", some "Vida", none, some "adet", none, some "abc"⟩
        none).2.body.hasFieldError "group_id" = false :=
  ⟨by decide, by decide⟩

/-- C2 (amended): when all four required fields are present (non-empty)
and `group_id` does not parse as an integer, the action responds 400 with
exactly the `group_id` invalid-group error, which is distinct from the
required-field error message; no insert is issued. (When another required
field is also missing, only the required-field errors are returned.) -/
theorem claim_C2_amended_invalid_group_error_when_required_present
    (f : FormInput) (ins : Option DbError)
    (h1 : jsFalsy f.stock_code = false) (h2 : jsFalsy f.material_name_1 = false)
    (h3 : jsFalsy f.unit_of_measure = false) (h4 : jsFalsy f.group_id = false)
    (hp : parseInt10 (jsToString f.group_id) = none) :
    (NewProductRoute.action (some ()) f ins).1 = [] ∧
    (NewProductRoute.action (some ()) f ins).2 =
      ⟨400, none, .fieldErrors [("group_id", "Geçersiz Ürün Grubu.")], true⟩ ∧
    ("Geçersiz Ürün Grubu." : String) ≠ "Ürün Grubu seçilmelidir." := by
  have hre : requiredFieldErrors f = [] := by
    simp [requiredFieldErrors, h1, h2, h3, h4]
  refine ⟨?_, ?_, by decide⟩ <;> simp [NewProductRoute.action, hre, hp]

/-- Witness for the amended C2 at a concrete submission. -/
theorem claim_C2_amended_invalid_group_witness :
    (NewProductRoute.action (some ())
        ⟨some "VIDA-1", some "Vida", none, some "adet", none, some "abc"⟩ none).2 =
      ⟨400, none, .fieldErrors [("group_id", "Geçersiz Ürün Grubu.")], true⟩ :=
  (claim_C2_amended_invalid_group_error_when_required_present
      ⟨some "VIDA-1", some "Vida", none, some "adet", none, some "abc"⟩ none
      (by decide) (by decide) (by decide) (by decide) (by decide)).2.1

/-- C3: for every submission with at least one of `stock_code`,
`material_name_1`, `unit_of_measure`, `group_id` empty (or absent), the
action responds 400 carrying the accumulated field errors, with an entry
for each missing field, and issues no store operation (no insert). -/
theorem claim_C3_missing_required_fields_yield_400_and_no_insert
    (f : FormInput) (ins : Option DbError)
    (h : jsFalsy f.stock_code = true ∨ jsFalsy f.material_name_1 = true ∨
         jsFalsy f.unit_of_measure = true ∨ jsFalsy f.group_id = true) :
    (NewProductRoute.action (some ()) f ins).1 = [] ∧
    (NewProductRoute.action (some ()) f ins).2.status = 400 ∧
    (NewProductRoute.action (some ()) f ins).2.body =
      .fieldErrors (requiredFieldErrors f) ∧
    (jsFalsy f.stock_code = true →
      (NewProductRoute.action (some ()) f ins).2.body.hasFieldError "stock_code" = true) ∧
    (jsFalsy f.material_name_1 = true →
      (NewProductRoute.action (some ()) f ins).2.body.hasFieldError "material_name_1" = true) ∧
    (jsFalsy f.unit_of_measure = true →
      (NewProductRoute.action (some ()) f ins).2.body.hasFieldError "unit_of_measure" = true) ∧
    (jsFalsy f.group_id = true →
      (NewProductRoute.action (some ()) f ins).2.body.hasFieldError "group_id" = true) := by
  cases h1 : jsFalsy f.stock_code <;> cases h2 : jsFalsy f.material_name_1 <;>
    cases h3 : jsFalsy f.unit_of_measure <;> cases h4 : jsFalsy f.group_id <;>
    simp_all [NewProductRoute.action, requiredFieldErrors, RespBody.hasFieldError]

/-- Witness for C3: all four required fields empty. -/
theorem claim_C3_witness :
    (NewProductRoute.action (some ())
        ⟨some "", some "", none, some "", none, some ""⟩ none).1 = [] ∧
    (NewProductRoute.action (some ())
        ⟨some "", some "", none, some "", none, some ""⟩ none).2.status = 400 ∧
    (NewProductRoute.action (some ())
        ⟨some "", some "", none, some "", none, some ""⟩
        none).2.body.hasFieldError "group_id" = true := by
  have h := claim_C3_missing_required_fields_yield_400_and_no_insert
    ⟨some "", some "", none, some "", none, some ""⟩ none (Or.inl (by decide))
  exact ⟨h.1, h.2.1, h.2.2.2.2.2.2 (by decide)⟩

/-- C4: when the insert fails with the unique-constraint code `23505`,
the action responds 409 with a message containing the exact submitted
stock code, and a failed insert leaves the store table unchanged (no
product row is created). -/
theorem claim_C4_duplicate_stock_code_yields_409_naming_code
    (f : FormInput) (sc : String) (gid : Int) (tbl : List InsertedRow)
    (hsc : f.stock_code = some sc) (hscne : sc ≠ "")
    (h2 : jsFalsy f.material_name_1 = false)
    (h3 : jsFalsy f.unit_of_measure = false) (h4 : jsFalsy f.group_id = false)
    (hp : parseInt10 (jsToString f.group_id) = some gid) :
    (NewProductRoute.action (some ()) f (some ⟨"23505"⟩)).2.status = 409 ∧
    (NewProductRoute.action (some ()) f (some ⟨"23505"⟩)).2.body =
      .message ("Bu Stok Kodu (" ++ sc ++ ") zaten mevcut.") ∧
    (∃ pre suf, "Bu Stok Kodu (" ++ sc ++ ") zaten mevcut." = pre ++ sc ++ suf) ∧
    (∀ row, storeApplyInsert tbl row (some ⟨"23505"⟩) = tbl) := by
  have h1 : jsFalsy f.stock_code = false := by rw [hsc]; simp [jsFalsy, hscne]
  have hre : requiredFieldErrors f = [] := by
    simp [requiredFieldErrors, h1, h2, h3, h4]
  have hj : jsToString f.stock_code = sc := by rw [hsc]; rfl
  refine ⟨?_, ?_, ⟨"Bu Stok Kodu (", ") zaten mevcut.", rfl⟩, fun _ => rfl⟩ <;>
    simp [NewProductRoute.action, hre, hp, hj]

/-- Witness for C4 at a concrete duplicate submission. -/
theorem claim_C4_witness :
    (NewProductRoute.action (some ())
        ⟨some "SC-1", some "Vida", none, some "adet", none, some "7"⟩
        (some ⟨"23505"⟩)).2.status = 409 ∧
    (NewProductRoute.action (some ())
        ⟨some "SC-1", some "Vida", none, some "adet", none, some "7"⟩
        (some ⟨"23505"⟩)).2.body =
      .message ("Bu Stok Kodu (" ++ "SC-1" ++ ") zaten mevcut.") := by
  have h := claim_C4_duplicate_stock_code_yields_409_naming_code
    ⟨some "SC-1", some "Vida", none, some "adet", none, some "7"⟩
    "SC-1" 7 [] rfl (by decide) (by decide) (by decide) (by decide) (by decide)
  exact ⟨h.1, h.2.1⟩

/-- C5: for a valid submission whose optional fields `material_name_2`
and `serial_number` are omitted or empty, the inserted row stores both as
absent (null) and `current_stock` as 0, and the response is a redirect to
`/products`. -/
theorem claim_C5_optional_fields_absent_zero_stock_redirect
    (f : FormInput) (gid : Int)
    (h1 : jsFalsy f.stock_code = false) (h2 : jsFalsy f.material_name_1 = false)
    (h3 : jsFalsy f.unit_of_measure = false) (h4 : jsFalsy f.group_id = false)
    (hp : parseInt10 (jsToString f.group_id) = some gid)
    (hm2 : jsFalsy f.material_name_2 = true) (hsn : jsFalsy f.serial_number = true) :
    (NewProductRoute.action (some ()) f none).1 =
      [.insertInto "products"
        ⟨f.stock_code, f.material_name_1, none, f.unit_of_measure, none, gid, 0⟩] ∧
    (NewProductRoute.action (some ()) f none).2 =
      ⟨302, some "/products", .emptyBody, true⟩ := by
  have hre : requiredFieldErrors f = [] := by
    simp [requiredFieldErrors, h1, h2, h3, h4]
  have ho2 : orNull f.material_name_2 = none := by simp [orNull, hm2]
  have hosn : orNull f.serial_number = none := by simp [orNull, hsn]
  constructor <;> simp [NewProductRoute.action, hre, hp, ho2, hosn]

/-- Witness for C5: `material_name_2` empty string, `serial_number`
absent. -/
theorem claim_C5_witness :
    (NewProductRoute.action (some ())
        ⟨some "SC-2", some "Civata", some "", some "kg", none, some "3"⟩ none).1 =
      [.insertInto "products"
        ⟨some "SC-2", some "Civata", none, some "kg", none, 3, 0⟩] ∧
    (NewProductRoute.action (some ())
        ⟨some "SC-2", some "Civata", some "", some "kg", none, some "3"⟩ none).2 =
      ⟨302, some "/products", .emptyBody, true⟩ :=
  claim_C5_optional_fields_absent_zero_stock_redirect
    ⟨some "SC-2", some "Civata", some "", some "kg", none, some "3"⟩ 3
    (by decide) (by decide) (by decide) (by decide) (by decide) (by decide) (by decide)

/-- C6: when the insert fails with any store error code other than
`23505`, the action responds 500 with the generic localized message; and
for every possible insert outcome the action yields an HTTP response
(redirect, 409 or 500), so no store error passes the handler boundary. -/
theorem claim_C6_other_store_errors_yield_500_none_propagate
    (f : FormInput) (gid : Int) (e : DbError)
    (h1 : jsFalsy f.stock_code = false) (h2 : jsFalsy f.material_name_1 = false)
    (h3 : jsFalsy f.unit_of_measure = false) (h4 : jsFalsy f.group_id = false)
    (hp : parseInt10 (jsToString f.group_id) = some gid)
    (hne : (e.code == "23505") = false) :
    (NewProductRoute.action (some ()) f (some e)).2 =
      ⟨500, none, .message "Ürün eklenirken bir veritabanı hatası oluştu.", true⟩ ∧
    (∀ out : Option DbError,
      (NewProductRoute.action (some ()) f out).2.status = 302 ∨
      (NewProductRoute.action (some ()) f out).2.status = 409 ∨
      (NewProductRoute.action (some ()) f out).2.status = 500) := by
  have hre : requiredFieldErrors f = [] := by
    simp [requiredFieldErrors, h1, h2, h3, h4]
  constructor
  · simp [NewProductRoute.action, hre, hp, hne]
  · intro out
    match out with
    | none => left; simp [NewProductRoute.action, hre, hp]
    | some e' =>
      cases he : e'.code == "23505"
      · right; right; simp [NewProductRoute.action, hre, hp, he]
      · right; left; simp [NewProductRoute.action, hre, hp, he]

/-- Witness for C6 at a concrete non-unique-violation error code. -/
theorem claim_C6_witness :
    (NewProductRoute.action (some ())
        ⟨some "SC-3", some "Somun", none, some "adet", none, some "2"⟩
        (some ⟨"42P01"⟩)).2 =
      ⟨500, none, .message "Ürün eklenirken bir veritabanı hatası oluştu.", true⟩ :=
  (claim_C6_other_store_errors_yield_500_none_propagate
      ⟨some "SC-3", some "Somun", none, some "adet", none, some "2"⟩ 2 ⟨"42P01"⟩
      (by decide) (by decide) (by decide) (by decide) (by decide) (by decide)).1

/-- A decimal digit is not one of the whitespace characters skipped by
`parseInt`. -/
theorem isDigit_not_jsWhitespace (c : Char) (h : c.isDigit = true) :
    isJsWhitespace c = false := by
  cases hc : isJsWhitespace c
  · rfl
  · exfalso
    simp [isJsWhitespace] at hc
    rcases hc with ((((h1 | h1) | h1) | h1) | h1) | h1 <;> subst h1 <;>
      exact absurd h (by decide)

/-- A decimal digit is not the minus sign. -/
theorem isDigit_ne_minus (c : Char) (h : c.isDigit = true) : c ≠ '-' := by
  intro he; subst he; exact absurd h (by decide)

/-- A decimal digit is not the plus sign. -/
theorem isDigit_ne_plus (c : Char) (h : c.isDigit = true) : c ≠ '+' := by
  intro he; subst he; exact absurd h (by decide)

/-- `parseInt(s, 10)` on a string that begins with a decimal digit
succeeds and returns the value of the maximal leading digit run. -/
theorem parseInt10_digit_lead (s : String) (c : Char) (rest : List Char)
    (hs : s.data = c :: rest) (hd : c.isDigit = true) :
    parseInt10 s = some ((digitPrefixVal s.data 0 : Nat) : Int) := by
  have hw : isJsWhitespace c = false := isDigit_not_jsWhitespace c hd
  unfold parseInt10
  rw [hs, List.dropWhile_cons, hw]
  simp [isDigit_ne_minus c hd, isDigit_ne_plus c hd, jsParseIntDigits, hd]

/-- C7: for every authenticated list request that the store answers
without error, the loader returns 200 with the store's ordered result,
whose names are sorted ascending by `material_name_1`; the rendered table
body for an empty result is exactly one placeholder row, and for a
non-empty result it is one row per product. -/
theorem claim_C7_sorted_listing_and_empty_placeholder
    (tbl : List ProductWithGroup) :
    (ProductsRoute.loader (some ()) tbl none).2.status = 200 ∧
    (ProductsRoute.loader (some ()) tbl none).2.body =
      .productsJson (storeSelectProductsOrdered tbl) ∧
    List.Sorted (· ≤ ·)
      ((storeSelectProductsOrdered tbl).map (fun p => p.material_name_1)) ∧
    ProductsRoute.renderTableBody [] = [.placeholder] ∧
    (∀ (p : ProductWithGroup) (ps : List ProductWithGroup),
      ProductsRoute.renderTableBody (p :: ps) = (p :: ps).map .productRow) := by
  refine ⟨rfl, rfl, ?_, rfl, fun p ps => rfl⟩
  have hs : List.Sorted productNameLe (storeSelectProductsOrdered tbl) :=
    List.sorted_insertionSort productNameLe tbl
  exact List.pairwise_map.mpr (hs.imp (fun h => h))

/-- C8: when `group_id` is a string beginning with a decimal digit
(possibly followed by non-digits) and the other required fields are
present, the action reports no validation error: `parseInt` accepts the
digit prefix, and the product is inserted with `group_id` equal to the
value of that prefix, after which the action redirects to `/products`. -/
theorem claim_C8_digit_prefix_group_id_accepted
    (f : FormInput) (s : String) (c : Char) (rest : List Char)
    (hg : f.group_id = some s) (hs : s.data = c :: rest) (hd : c.isDigit = true)
    (h1 : jsFalsy f.stock_code = false) (h2 : jsFalsy f.material_name_1 = false)
    (h3 : jsFalsy f.unit_of_measure = false) :
    (NewProductRoute.action (some ()) f none).2.status ≠ 400 ∧
    (NewProductRoute.action (some ()) f none).1 =
      [.insertInto "products"
        ⟨f.stock_code, f.material_name_1, orNull f.material_name_2,
         f.unit_of_measure, orNull f.serial_number,
         ((digitPrefixVal s.data 0 : Nat) : Int), 0⟩] ∧
    (NewProductRoute.action (some ()) f none).2 =
      ⟨302, some "/products", .emptyBody, true⟩ := by
  have hsne : s ≠ "" := by
    intro he; rw [he] at hs; exact (List.cons_ne_nil c rest) hs.symm
  have h4 : jsFalsy f.group_id = false := by rw [hg]; simp [jsFalsy, hsne]
  have hre : requiredFieldErrors f = [] := by
    simp [requiredFieldErrors, h1, h2, h3, h4]
  have hj : jsToString f.group_id = s := by rw [hg]; rfl
  have hp : parseInt10 (jsToString f.group_id) =
      some ((digitPrefixVal s.data 0 : Nat) : Int) := by
    rw [hj]; exact parseInt10_digit_lead s c rest hs hd
  refine ⟨?_, ?_, ?_⟩ <;> simp [NewProductRoute.action, hre, hp]

/-- Witness for C8 at `group_id = "12abc"`: the inserted `group_id`
is 12. -/
theorem claim_C8_witness :
    (NewProductRoute.action (some ())
        ⟨some "SC-8", some "Conta", none, some "adet", none, some "12abc"⟩ none).1 =
      [.insertInto "products"
        ⟨some "SC-8", some "Conta", none, some "adet", none, 12, 0⟩] ∧
    (NewProductRoute.action (some ())
        ⟨some "SC-8", some "Conta", none, some "adet", none, some "12abc"⟩ none).2 =
      ⟨302, some "/products", .emptyBody, true⟩ := by
  have h := claim_C8_digit_prefix_group_id_accepted
    ⟨some "SC-8", some "Conta", none, some "adet", none, some "12abc"⟩
    "12abc" '1' "2abc".data rfl rfl (by decide) (by decide) (by decide) (by decide)
  exact ⟨h.2.1, h.2.2⟩

/-- C9: whitespace-only required fields pass the required-field checks
(only empty or absent counts as missing), and all values — including
whitespace-only optional fields — are inserted verbatim, untrimmed and
not normalized to absent. -/
theorem claim_C9_whitespace_only_fields_pass_and_stored_verbatim
    (s1 s2 s3 m2 sn gs : String) (gid : Int)
    (hs1 : s1 ≠ "") (_hw1 : ∀ c ∈ s1.data, isJsWhitespace c = true)
    (hs2 : s2 ≠ "") (_hw2 : ∀ c ∈ s2.data, isJsWhitespace c = true)
    (hs3 : s3 ≠ "") (_hw3 : ∀ c ∈ s3.data, isJsWhitespace c = true)
    (hm2 : m2 ≠ "") (_hwm2 : ∀ c ∈ m2.data, isJsWhitespace c = true)
    (hsn : sn ≠ "") (_hwsn : ∀ c ∈ sn.data, isJsWhitespace c = true)
    (hg : parseInt10 gs = some gid) :
    requiredFieldErrors ⟨some s1, some s2, some m2, some s3, some sn, some gs⟩ = [] ∧
    (NewProductRoute.action (some ())
        ⟨some s1, some s2, some m2, some s3, some sn, some gs⟩ none).1 =
      [.insertInto "products" ⟨some s1, some s2, some m2, some s3, some sn, gid, 0⟩] ∧
    (NewProductRoute.action (some ())
        ⟨some s1, some s2, some m2, some s3, some sn, some gs⟩ none).2 =
      ⟨302, some "/products", .emptyBody, true⟩ := by
  have h1 : jsFalsy (some s1) = false := by simp [jsFalsy, hs1]
  have h2 : jsFalsy (some s2) = false := by simp [jsFalsy, hs2]
  have h3 : jsFalsy (some s3) = false := by simp [jsFalsy, hs3]
  have h4 : jsFalsy (some gs) = false := by
    simp [jsFalsy]
    intro he
    rw [he, show parseInt10 "" = none from by decide] at hg
    exact Option.noConfusion hg
  have hre : requiredFieldErrors ⟨some s1, some s2, some m2, some s3, some sn, some gs⟩ = [] := by
    simp [requiredFieldErrors, h1, h2, h3, h4]
  have hom2 : orNull (some m2) = some m2 := by simp [orNull, jsFalsy, hm2]
  have hosn : orNull (some sn) = some sn := by simp [orNull, jsFalsy, hsn]
  have hj : jsToString (some gs) = gs := rfl
  refine ⟨hre, ?_, ?_⟩ <;>
    simp [NewProductRoute.action, hre, hj, hg, hom2, hosn]

/-- Witness for C9: all three required fields and both optional fields
are the single-space string. -/
theorem claim_C9_witness :
    (NewProductRoute.action (some ())
        ⟨some " ", some " ", some " ", some " ", some " ", some "5"⟩ none).1 =
      [.insertInto "products"
        ⟨some " ", some " ", some " ", some " ", some " ", 5, 0⟩] ∧
    (NewProductRoute.action (some ())
        ⟨some " ", some " ", some " ", some " ", some " ", some "5"⟩ none).2 =
      ⟨302, some "/products", .emptyBody, true⟩ := by
  have h := claim_C9_whitespace_only_fields_pass_and_stored_verbatim
    " " " " " " " " " " "5" 5
    (by decide) (by decide) (by decide) (by decide) (by decide) (by decide)
    (by decide) (by decide) (by decide) (by decide) (by decide)
  exact ⟨h.2.1, h.2.2⟩

/-- C10 counterexample: with a valid session and a store error, the list
loader's 500 response is built without the auth client's response
headers (`throw new Response(...)` passes no headers), refuting the claim
that every response on every path carries them. -/
theorem claim_C10_counterexample_loader_500_lacks_headers :
    (ProductsRoute.loader (some ()) [] (some ⟨"57014"⟩)).2 =
      ⟨500, none, .message "Ürünler yüklenirken bir hata oluştu.", false⟩ ∧
    (ProductsRoute.loader (some ()) [] (some ⟨"57014"⟩)).2.withAuthHeaders = false :=
  ⟨rfl, rfl⟩

/-- C10 (amended): every response of the create action carries the auth
client's response headers, and the list loader's responses carry them on
every path except the store-error 500, which is thrown without headers. -/
theorem claim_C10_amended_headers_on_all_paths_except_loader_500 :
    (∀ (sess : Option Unit) (f : FormInput) (out : Option DbError),
      (NewProductRoute.action sess f out).2.withAuthHeaders = true) ∧
    (∀ (sess : Option Unit) (tbl : List ProductWithGroup),
      (ProductsRoute.loader sess tbl none).2.withAuthHeaders = true) ∧
    (∀ (tbl : List ProductWithGroup) (selErr : Option DbError),
      (ProductsRoute.loader none tbl selErr).2.withAuthHeaders = true) ∧
    (∀ (tbl : List ProductWithGroup) (e : DbError),
      (ProductsRoute.loader (some ()) tbl (some e)).2.withAuthHeaders = false) := by
  refine ⟨?_, ?_, fun tbl selErr => rfl, fun tbl e => rfl⟩
  · intro sess f out
    rcases sess with _ | _
    · rfl
    · unfold NewProductRoute.action
      dsimp only
      split
      · rfl
      · split
        · rfl
        · rcases out with _ | e
          · rfl
          · dsimp only
            split <;> rfl
  · intro sess tbl
    rcases sess with _ | _ <;> rfl

end Depo
